import Mathlib

/-!
Shallow embedding of the kytos `setup.py` command/install subsystem.

The file system is modeled as an association list from absolute path strings
to entries (regular files with string contents, directories with an optional
forced mode, and symbolic links).  Later writes shadow earlier entries, so
`fsSet` is cons and `fsLookup` takes the first match.

Stateful fallible operations return `Res`, which carries the file system both
on success and at the point an exception is raised (Python exceptions do not
roll back file-system effects).
-/

set_option autoImplicit false

/-- A file-system entry: a regular file with contents, a directory with an
optional explicitly-set permission mode (`none` = process default), or a
symbolic link to a target path. -/
inductive Entry where
  | file (content : String)
  | dir (mode : Option Nat)
  | symlink (target : String)
deriving DecidableEq, Repr

/-- The file system: an association list from absolute paths to entries.
The first binding for a path is the current one. -/
abbrev FS := List (String × Entry)

/-- Exceptions raised by the modeled operations. -/
inductive Err where
  | attributeError
  | fileNotFoundError (p : String)
  | fileExistsError (p : String)
  | isADirectoryError (p : String)
  | calledProcessError
deriving DecidableEq, Repr

/-- Result of a stateful operation: success with the new file system, or an
exception together with the file system at the moment it was raised. -/
inductive Res where
  | ok (fs : FS)
  | err (e : Err) (fs : FS)
deriving DecidableEq, Repr

/-- First binding for a path, if any. -/
def fsLookup : FS → String → Option Entry
  | [], _ => none
  | (q, e) :: rest, p => if q = p then some e else fsLookup rest p

/-- Bind (or overwrite) a path with a new entry. -/
def fsSet (fs : FS) (p : String) (e : Entry) : FS := (p, e) :: fs

/-- `os.path.exists`: true when the path resolves to an entry, following a
symbolic link one level (a dangling link does not exist). -/
def path_exists (fs : FS) (p : String) : Bool :=
  match fsLookup fs p with
  | none => false
  | some (.symlink t) => (fsLookup fs t).isSome
  | some _ => true

/-- Read a regular file's contents, following a symbolic link one level. -/
def readFile (fs : FS) (p : String) : Option String :=
  match fsLookup fs p with
  | some (.file c) => some c
  | some (.symlink t) =>
    match fsLookup fs t with
    | some (.file c) => some c
    | _ => none
  | _ => none

/-- `open(p, 'w').write(c)`: writing through a symbolic link writes the
target; writing onto a directory raises IsADirectoryError. -/
def writeFile (fs : FS) (p : String) (c : String) : Res :=
  match fsLookup fs p with
  | some (.dir _) => .err (.isADirectoryError p) fs
  | some (.symlink t) =>
    match fsLookup fs t with
    | some (.dir _) => .err (.isADirectoryError t) fs
    | _ => .ok (fsSet fs t (.file c))
  | _ => .ok (fsSet fs p (.file c))

/-- Python `s.endswith('/')`: the last character is a slash. -/
def pyEndswithSlash (s : String) : Bool := s.data.getLast? == some '/'

/-- Python `s[:-1]`: drop the last character. -/
def pyDropLast (s : String) : String := String.mk s.data.dropLast

/-- The normalization applied to the `prefix` keyword argument at the top of
`generate_file_from_template`: strip one trailing `'/'` when present. -/
def normalize_pfx (p : String) : String :=
  if pyEndswithSlash p then pyDropLast p else p

/-- `os.path.join a b` / `Path(a) / b` for a relative `b`. -/
def pathJoin (a b : String) : String :=
  if a = "" then b
  else if pyEndswithSlash a then a ++ b else a ++ "/" ++ b

/-- Whether a path string is absolute. -/
def isAbs (p : String) : Bool := p.data.head? == some '/'

/-- Resolve a possibly relative path against the working directory (the
script is run from its own source directory, as it also opens
`kytos/core/metadata.py` relative to it). -/
def resolve (cwd p : String) : String := if isAbs p then p else pathJoin cwd p

/-- One step of Python `str.replace` on character lists, fuel-bounded by the
input length; replaces non-overlapping occurrences left to right. -/
def replaceCharsAux (pat repl : List Char) : Nat → List Char → List Char
  | 0, s => s
  | _ + 1, [] => []
  | n + 1, c :: rest =>
    if pat.isPrefixOf (c :: rest) then
      repl ++ replaceCharsAux pat repl n ((c :: rest).drop pat.length)
    else
      c :: replaceCharsAux pat repl n rest

/-- Python `s.replace(pat, repl)` (for the non-empty patterns used here). -/
def pyReplace (s pat repl : String) : String :=
  String.mk (replaceCharsAux pat.data repl.data s.data.length s.data)

/-- `jinja2.Template(content).render(...)`: a pure function of the template
text and the context; modeled as literal interpolation of the two context
variables used by the repository's templates. -/
def jinja_render (content pfx : String) (syslog_args : List String) : String :=
  pyReplace
    (pyReplace content "\x7b\x7b prefix \x7d\x7d" pfx)
    "\x7b\x7b syslog_args \x7d\x7d" (String.intercalate " " syslog_args)

/-- `BASE_ENV = os.environ.get('VIRTUAL_ENV', None) or '/'` — an unset or
empty (falsy) VIRTUAL_ENV yields the system root. -/
def BASE_ENV (virtual_env : Option String) : String :=
  match virtual_env with
  | none => "/"
  | some v => if v = "" then "/" else v

/-- `ETC_FILES` from setup.py. -/
def ETC_FILES : List String := ["etc/kytos/logging.ini"]

/-- `TEMPLATE_FILES` from setup.py. -/
def TEMPLATE_FILES : List String :=
  ["etc/kytos/kytos.conf.template", "etc/kytos/logging.ini.template"]

/-- The keyword arguments of `generate_file_from_template`: `pfx` models the
'prefix' entry (`none` when the key is absent, as `kwargs.get('prefix')`
returns None), plus the `syslog_args` entry. -/
structure Kwargs where
  pfx : Option String
  syslog_args : List String

/-- `CommonInstall.create_paths`: ensure `BASE_ENV/etc/kytos` exists; plain
`os.makedirs` guarded by `os.path.exists`, so an entry that exists but does
not resolve (dangling link) makes `makedirs` raise FileExistsError. -/
def create_paths (baseEnv : String) (fs : FS) : Res :=
  let d := pathJoin baseEnv "etc/kytos"
  if path_exists fs d then .ok fs
  else
    match fsLookup fs d with
    | none => .ok (fsSet fs d (.dir none))
    | some _ => .err (.fileExistsError d) fs

/-- `os.makedirs(p, exist_ok=True)`: an existing directory (also through a
link) is success; an existing non-directory entry raises FileExistsError. -/
def makedirs_exist_ok (fs : FS) (p : String) : Res :=
  match fsLookup fs p with
  | none => .ok (fsSet fs p (.dir none))
  | some (.dir _) => .ok fs
  | some (.symlink t) =>
    match fsLookup fs t with
    | some (.dir _) => .ok fs
    | _ => .err (.fileExistsError p) fs
  | some _ => .err (.fileExistsError p) fs

/-- Force a permission mode on an entry; only directory modes are tracked by
the model. -/
def setMode (e : Entry) (m : Nat) : Entry :=
  match e with
  | .dir _ => .dir (some m)
  | e => e

/-- `os.chmod`: follows a symbolic link one level; a missing path raises
FileNotFoundError. -/
def chmod (fs : FS) (p : String) (m : Nat) : Res :=
  match fsLookup fs p with
  | none => .err (.fileNotFoundError p) fs
  | some (.symlink t) =>
    match fsLookup fs t with
    | none => .err (.fileNotFoundError p) fs
    | some e => .ok (fsSet fs t (setMode e m))
  | some e => .ok (fsSet fs p (setMode e m))

/-- `CommonInstall.create_pid_folder`: ensure `BASE_ENV/var/run/kytos`
exists (`exist_ok=True`), and for a system install (`BASE_ENV == '/'`) chmod
it to `0o1777` (permissions like `/tmp`). -/
def create_pid_folder (baseEnv : String) (fs : FS) : Res :=
  let pid_folder := pathJoin baseEnv "var/run/kytos"
  match makedirs_exist_ok fs pid_folder with
  | .err e fs1 => .err e fs1
  | .ok fs1 =>
    if baseEnv = "/" then chmod fs1 pid_folder 0o1777 else .ok fs1

/-- The per-template loop body of `generate_file_from_template`: read each
template (path relative to the working directory), render it with the
already-normalized context, and write the result to the destination path with
the `.template` marker stripped. -/
def renderAll (root destination pfx : String) (syslog_args : List String) :
    List String → FS → Res
  | [], fs => .ok fs
  | path :: rest, fs =>
    match readFile fs (resolve root path) with
    | none => .err (.fileNotFoundError path) fs
    | some content =>
      let dst := pathJoin destination (pyReplace path ".template" "")
      match writeFile fs dst (jinja_render content pfx syslog_args) with
      | .err e fs1 => .err e fs1
      | .ok fs1 => renderAll root destination pfx syslog_args rest fs1

/-- `CommonInstall.generate_file_from_template`: `kwargs.get('prefix')` is
None when the key is absent, so `.endswith('/')` raises AttributeError before
anything else happens; otherwise one trailing '/' is stripped, `create_paths`
runs, and every template is rendered and written. `root` is the directory of
setup.py (the default `destination`) and the working directory. -/
def generate_file_from_template (baseEnv root : String) (templates : List String)
    (destination : String) (kw : Kwargs) (fs : FS) : Res :=
  match kw.pfx with
  | none => .err .attributeError fs
  | some p =>
    let p := normalize_pfx p
    match create_paths baseEnv fs with
    | .err e fs1 => .err e fs1
    | .ok fs1 => renderAll root destination p kw.syslog_args templates fs1

/-- `DevelopMode.generate_file_link`: symlink `root/file_name` to
`BASE_ENV/file_name` only when `os.path.exists` is false at the destination;
`os.symlink` raises FileExistsError when any entry is present there. -/
def generate_file_link (root baseEnv file_name : String) (fs : FS) : Res :=
  let src := pathJoin root file_name
  let dst := pathJoin baseEnv file_name
  if path_exists fs dst then .ok fs
  else
    match fsLookup fs dst with
    | none => .ok (fsSet fs dst (.symlink src))
    | some _ => .err (.fileExistsError dst) fs

/-- `shutil.copy2 src dst`: read the source contents (following links) and
write them at the destination. -/
def copy2 (fs : FS) (src dst : String) : Res :=
  match readFile fs src with
  | none => .err (.fileNotFoundError src) fs
  | some c => writeFile fs dst c

/-- The `for file in ETC_FILES: shutil.copy2(file, Path(BASE_ENV) / file)`
loop of `InstallMode.run`. -/
def copy_etc_files (baseEnv root : String) : List String → FS → Res
  | [], fs => .ok fs
  | f :: rest, fs =>
    match copy2 fs (resolve root f) (pathJoin baseEnv f) with
    | .err e fs1 => .err e fs1
    | .ok fs1 => copy_etc_files baseEnv root rest fs1

/-- `InstallMode.run`: after the underlying setuptools install step (an
external collaborator that does not touch the configuration paths modeled
here), render the templates into the source tree (default destination), copy
each plain config file into the install target, and ensure the pid folder. -/
def InstallMode_run (baseEnv root : String) (syslog_args : List String) (fs : FS) : Res :=
  match generate_file_from_template baseEnv root TEMPLATE_FILES root
      (Kwargs.mk (some baseEnv) syslog_args) fs with
  | .err e fs1 => .err e fs1
  | .ok fs1 =>
    match copy_etc_files baseEnv root ETC_FILES fs1 with
    | .err e fs2 => .err e fs2
    | .ok fs2 => create_pid_folder baseEnv fs2

/-- The symlink loop of `DevelopMode.run` over the plain config files and the
rendered template outputs. -/
def develop_links (root baseEnv : String) : List String → FS → Res
  | [], fs => .ok fs
  | f :: rest, fs =>
    match generate_file_link root baseEnv f fs with
    | .err e fs1 => .err e fs1
    | .ok fs1 => develop_links root baseEnv rest fs1

/-- `DevelopMode.run`: underlying develop step (external collaborator,
identity here), template rendering, symlinks for plain and template-derived
config files, and the pid folder. -/
def DevelopMode_run (baseEnv root : String) (syslog_args : List String) (fs : FS) : Res :=
  match generate_file_from_template baseEnv root TEMPLATE_FILES root
      (Kwargs.mk (some baseEnv) syslog_args) fs with
  | .err e fs1 => .err e fs1
  | .ok fs1 =>
    match develop_links root baseEnv
        (ETC_FILES ++ TEMPLATE_FILES.map (fun f => pyReplace f ".template" "")) fs1 with
    | .err e fs2 => .err e fs2
    | .ok fs2 => create_pid_folder baseEnv fs2

/-- `SASSBuild.style_css`: the compiled artifact's path. -/
def style_css_path (root : String) : String :=
  pathJoin root "kytos/web-ui/static/css/style.css"

/-- The source-map output path next to the compiled artifact. -/
def style_map_path (root : String) : String :=
  pathJoin root "kytos/web-ui/static/css/style.css.map"

/-- `main_scss`: the compiler's input. -/
def main_scss_path (root : String) : String :=
  pathJoin root "web-ui-src/sass/main.scss"

/-- `sass.compile`: the external compiler, modeled as an uninterpreted pure
function of the source text returning the compiled text and its map. -/
def sass_compile (srcText : String) : String × String :=
  ("compiled:" ++ srcText, "map:" ++ srcText)

/-- `SASSBuild.build`: read the SASS source, invoke the external compiler
once, and write both outputs. The second component counts compiler
invocations. -/
def SASSBuild_build (root : String) (fs : FS) : Res × Nat :=
  match readFile fs (main_scss_path root) with
  | none => (.err (.fileNotFoundError (main_scss_path root)) fs, 0)
  | some srcText =>
    let compiled := sass_compile srcText
    match writeFile fs (style_css_path root) compiled.1 with
    | .err e fs1 => (.err e fs1, 1)
    | .ok fs1 =>
      match writeFile fs1 (style_map_path root) compiled.2 with
      | .err e fs2 => (.err e fs2, 1)
      | .ok fs2 => (.ok fs2, 1)

/-- `EggInfo._check_sass`: skip the build (emitting a message) when the
compiled artifact already exists; otherwise build. Returns the result, the
compiler-invocation count and the emitted messages. -/
def EggInfo_check_sass (root : String) (fs : FS) : (Res × Nat) × List String :=
  if path_exists fs (style_css_path root) then
    ((.ok fs, 0), ["CSS already built. Not overriding it."])
  else
    (SASSBuild_build root fs, [])

/-- Outcome of one command's `run`: normal completion, an uncaught exception,
or process termination via `exit`. -/
inductive CIOutcome where
  | finished
  | raised
  | exitedProc (code : Int)
deriving DecidableEq, Repr

/-- `TestCoverage.run`: `check_call` raises CalledProcessError on a non-zero
subprocess exit; modeled by an oracle saying whether the subprocess
succeeded. -/
def TestCoverage_run (subprocess_ok : Bool) : CIOutcome :=
  if subprocess_ok then .finished else .raised

/-- `DocTest.run`: same `check_call` discipline. -/
def DocTest_run (subprocess_ok : Bool) : CIOutcome :=
  if subprocess_ok then .finished else .raised

/-- `Linter.run`: catches CalledProcessError from the linter subprocess and
calls `exit(-1)`; on success it completes normally. -/
def Linter_run (subprocess_ok : Bool) : CIOutcome :=
  if subprocess_ok then .finished else .exitedProc (-1)

/-- The three sub-commands of `CITest.run`. -/
inductive CICmd where
  | coverage
  | doctest
  | linter
deriving DecidableEq, Repr

/-- Dispatch one sub-command's `run` given the three subprocess oracles. -/
def run_subcommand (okCov okDoc okLint : Bool) : CICmd → CIOutcome
  | .coverage => TestCoverage_run okCov
  | .doctest => DocTest_run okDoc
  | .linter => Linter_run okLint

/-- Run commands in order with no error handling: a non-`finished` outcome
stops the sequence and propagates. Returns the executed commands in order
and the final outcome. -/
def run_sequence (runCmd : CICmd → CIOutcome) : List CICmd → List CICmd × CIOutcome
  | [] => ([], .finished)
  | c :: cs =>
    match runCmd c with
    | .finished =>
      let r := run_sequence runCmd cs
      (c :: r.1, r.2)
    | .raised => ([c], .raised)
    | .exitedProc n => ([c], .exitedProc n)

/-- `CITest.run`: `for command in TestCoverage, DocTest, Linter:
command(...).run()`. -/
def CITest_run (okCov okDoc okLint : Bool) : List CICmd × CIOutcome :=
  run_sequence (run_subcommand okCov okDoc okLint) [.coverage, .doctest, .linter]

/-! ## Helper lemmas -/

theorem fsLookup_set (fs : FS) (p : String) (e : Entry) (q : String) :
    fsLookup (fsSet fs p e) q = if p = q then some e else fsLookup fs q := by
  simp [fsSet, fsLookup]

theorem normalize_pfx_append_slash (p : String) : normalize_pfx (p ++ "/") = p := by
  have hd : (p ++ "/").data = p.data ++ ['/'] := String.data_append p "/"
  simp [normalize_pfx, pyEndswithSlash, pyDropLast, hd, List.getLast?_concat,
    List.dropLast_concat]

theorem normalize_pfx_no_slash (p : String) (h : pyEndswithSlash p = false) :
    normalize_pfx p = p := by
  simp [normalize_pfx, h]

theorem gfft_congr (baseEnv root destination a b : String) (templates args : List String)
    (fs : FS) (h : normalize_pfx a = normalize_pfx b) :
    generate_file_from_template baseEnv root templates destination (Kwargs.mk (some a) args) fs =
    generate_file_from_template baseEnv root templates destination (Kwargs.mk (some b) args) fs := by
  simp only [generate_file_from_template, h]

/-! ## Claim theorems -/

/-- C1: for every template set and render context, rendering with a prefix
carrying exactly one trailing path separator produces the same result (same
output files, byte for byte, and same final file system) as rendering with
the same prefix without that separator, because
`generate_file_from_template` strips one trailing '/' before substitution. -/
theorem render_trailing_slash_equiv
    (baseEnv root destination p : String) (templates args : List String) (fs : FS)
    (h : pyEndswithSlash p = false) :
    generate_file_from_template baseEnv root templates destination
      (Kwargs.mk (some (p ++ "/")) args) fs =
    generate_file_from_template baseEnv root templates destination
      (Kwargs.mk (some p) args) fs :=
  gfft_congr baseEnv root destination (p ++ "/") p templates args fs
    (by rw [normalize_pfx_append_slash, normalize_pfx_no_slash p h])

/-- Witness for C1 at `p = "/opt/app"` on a one-template file system. -/
theorem render_trailing_slash_equiv_witness :
    pyEndswithSlash "/opt/app" = false ∧
    generate_file_from_template "/" "/src" ["etc/kytos/kytos.conf.template"] "/src"
      (Kwargs.mk (some ("/opt/app" ++ "/")) [])
      [("/src/etc/kytos/kytos.conf.template", Entry.file "p=\x7b\x7b prefix \x7d\x7d")] =
    generate_file_from_template "/" "/src" ["etc/kytos/kytos.conf.template"] "/src"
      (Kwargs.mk (some "/opt/app") [])
      [("/src/etc/kytos/kytos.conf.template", Entry.file "p=\x7b\x7b prefix \x7d\x7d")] :=
  ⟨by decide,
    render_trailing_slash_equiv "/" "/src" "/src" "/opt/app"
      ["etc/kytos/kytos.conf.template"] []
      [("/src/etc/kytos/kytos.conf.template", Entry.file "p=\x7b\x7b prefix \x7d\x7d")]
      (by decide)⟩

/-- C2: `CITest.run` executes exactly TestCoverage, DocTest, Linter in that
fixed order; a sub-command that aborts stops the sequence (no later
sub-command runs) and the failure propagates with no extra handling. -/
theorem citest_fixed_order_and_abort :
    ∀ okCov okDoc okLint : Bool,
      CITest_run okCov okDoc okLint =
        if okCov = false then ([CICmd.coverage], CIOutcome.raised)
        else if okDoc = false then ([CICmd.coverage, CICmd.doctest], CIOutcome.raised)
        else if okLint = false then
          ([CICmd.coverage, CICmd.doctest, CICmd.linter], CIOutcome.exitedProc (-1))
        else ([CICmd.coverage, CICmd.doctest, CICmd.linter], CIOutcome.finished) := by
  decide

/-- C7: when the linter subprocess fails, `Linter.run` terminates the process
with the distinguished non-zero status -1 instead of propagating the
subprocess exception; on success the process is not terminated. -/
theorem linter_exit_behavior :
    Linter_run false = CIOutcome.exitedProc (-1) ∧
    Linter_run false ≠ CIOutcome.raised ∧
    ((-1 : Int) ≠ 0) ∧
    Linter_run true = CIOutcome.finished := by
  decide

/-- C9: with no active virtual environment the install target is '/', the
trailing-separator normalization applies to it, and the prefix substituted
into templates during a system install is the empty string, not '/'. -/
theorem base_env_system_root_renders_empty_string :
    BASE_ENV none = "/" ∧
    normalize_pfx (BASE_ENV none) = "" ∧
    ∀ (root destination : String) (templates args : List String) (fs : FS),
      generate_file_from_template (BASE_ENV none) root templates destination
        (Kwargs.mk (some (BASE_ENV none)) args) fs =
      generate_file_from_template (BASE_ENV none) root templates destination
        (Kwargs.mk (some "") args) fs := by
  refine ⟨rfl, by decide, ?_⟩
  intro root destination templates args fs
  exact gfft_congr _ _ _ _ _ _ _ _ (by decide)

/-- C10: a render context with no 'prefix' key makes
`generate_file_from_template` raise AttributeError before any directory is
created or any file is read or written: the file system is unchanged. -/
theorem render_missing_prefix_key_fails_unchanged
    (baseEnv root destination : String) (templates args : List String) (fs : FS) :
    generate_file_from_template baseEnv root templates destination
      (Kwargs.mk none args) fs = Res.err Err.attributeError fs := rfl

theorem makedirs_exist_ok_none (fs : FS) (p : String) (h : fsLookup fs p = none) :
    makedirs_exist_ok fs p = Res.ok (fsSet fs p (Entry.dir none)) := by
  simp [makedirs_exist_ok, h]

theorem makedirs_exist_ok_dir (fs : FS) (p : String) (m : Option Nat)
    (h : fsLookup fs p = some (Entry.dir m)) :
    makedirs_exist_ok fs p = Res.ok fs := by
  simp [makedirs_exist_ok, h]

theorem chmod_dir (fs : FS) (p : String) (m0 : Option Nat) (m : Nat)
    (h : fsLookup fs p = some (Entry.dir m0)) :
    chmod fs p m = Res.ok (fsSet fs p (Entry.dir (some m))) := by
  simp [chmod, h, setMode]

/-- C4: the packaging pre-hook's asset check does not invoke the external
compiler when `style.css` already exists (a message is emitted instead), and
invokes it exactly once when the artifact is absent. -/
theorem check_sass_skip_policy (root : String) (fs : FS) :
    (path_exists fs (style_css_path root) = true →
      EggInfo_check_sass root fs =
        ((Res.ok fs, 0), ["CSS already built. Not overriding it."])) ∧
    (∀ srcText, path_exists fs (style_css_path root) = false →
      readFile fs (main_scss_path root) = some srcText →
      (EggInfo_check_sass root fs).2 = [] ∧ (EggInfo_check_sass root fs).1.2 = 1) := by
  constructor
  · intro h
    simp [EggInfo_check_sass, h]
  · intro srcText h hr
    refine ⟨by simp [EggInfo_check_sass, h], ?_⟩
    simp only [EggInfo_check_sass, h, Bool.false_eq_true, if_false]
    simp only [SASSBuild_build, hr]
    cases hw1 : writeFile fs (style_css_path root) (sass_compile srcText).1 with
    | err e fs1 => simp
    | ok fs1 =>
      cases hw2 : writeFile fs1 (style_map_path root) (sass_compile srcText).2 with
      | err e fs2 => simp [hw2]
      | ok fs2 => simp [hw2]

/-- Witness for C4: artifact present (skip, zero invocations) and artifact
absent (one invocation), on concrete file systems. -/
theorem check_sass_skip_policy_witness :
    path_exists [(style_css_path "/src", Entry.file "css")] (style_css_path "/src") = true ∧
    EggInfo_check_sass "/src" [(style_css_path "/src", Entry.file "css")] =
      ((Res.ok [(style_css_path "/src", Entry.file "css")], 0),
       ["CSS already built. Not overriding it."]) ∧
    path_exists [(main_scss_path "/src", Entry.file "S")] (style_css_path "/src") = false ∧
    readFile [(main_scss_path "/src", Entry.file "S")] (main_scss_path "/src") = some "S" ∧
    (EggInfo_check_sass "/src" [(main_scss_path "/src", Entry.file "S")]).1.2 = 1 := by
  refine ⟨by decide, ?_, by decide, by decide, ?_⟩
  · exact (check_sass_skip_policy "/src" [(style_css_path "/src", Entry.file "css")]).1
      (by decide)
  · exact ((check_sass_skip_policy "/src" [(main_scss_path "/src", Entry.file "S")]).2
      "S" (by decide) (by decide)).2

/-- C6: `create_pid_folder` leaves the runtime directory with mode `0o1777`
for a system install (`BASE_ENV = '/'`), forces no mode for a
virtual-environment target (a fresh directory keeps the default `none`, an
existing one keeps its mode), and calling it again after a successful call
succeeds — an already-existing directory is success, not an error. -/
theorem create_pid_folder_spec (baseEnv : String) (fs : FS)
    (h : fsLookup fs (pathJoin baseEnv "var/run/kytos") = none ∨
         ∃ m, fsLookup fs (pathJoin baseEnv "var/run/kytos") = some (Entry.dir m)) :
    ∃ fs1, create_pid_folder baseEnv fs = Res.ok fs1 ∧
      (baseEnv = "/" →
        fsLookup fs1 "/var/run/kytos" = some (Entry.dir (some 0o1777))) ∧
      (baseEnv ≠ "/" → fsLookup fs (pathJoin baseEnv "var/run/kytos") = none →
        fsLookup fs1 (pathJoin baseEnv "var/run/kytos") = some (Entry.dir none)) ∧
      (baseEnv ≠ "/" → ∀ m, fsLookup fs (pathJoin baseEnv "var/run/kytos") = some (Entry.dir m) →
        fsLookup fs1 (pathJoin baseEnv "var/run/kytos") = some (Entry.dir m)) ∧
      ∃ fs2, create_pid_folder baseEnv fs1 = Res.ok fs2 := by
  by_cases hb : baseEnv = "/"
  · subst hb
    have hpid : pathJoin "/" "var/run/kytos" = "/var/run/kytos" := by decide
    rw [hpid] at h
    rcases h with h | ⟨m, h⟩
    · have hl1 : fsLookup (fsSet fs "/var/run/kytos" (Entry.dir none)) "/var/run/kytos" =
          some (Entry.dir none) := by simp [fsLookup_set]
      refine ⟨fsSet (fsSet fs "/var/run/kytos" (Entry.dir none)) "/var/run/kytos"
        (Entry.dir (some 0o1777)), ?_, ?_, ?_, ?_, ?_⟩
      · simp [create_pid_folder, hpid, makedirs_exist_ok_none fs _ h,
          chmod_dir _ _ none 0o1777 hl1]
      · intro _
        simp [fsLookup_set]
      · intro hne
        exact absurd rfl hne
      · intro hne
        exact absurd rfl hne
      · have hl2 : fsLookup (fsSet (fsSet fs "/var/run/kytos" (Entry.dir none))
            "/var/run/kytos" (Entry.dir (some 0o1777))) "/var/run/kytos" =
            some (Entry.dir (some 0o1777)) := by simp [fsLookup_set]
        refine ⟨fsSet (fsSet (fsSet fs "/var/run/kytos" (Entry.dir none))
          "/var/run/kytos" (Entry.dir (some 0o1777))) "/var/run/kytos"
          (Entry.dir (some 0o1777)), ?_⟩
        simp [create_pid_folder, hpid, makedirs_exist_ok_dir _ _ (some 0o1777) hl2,
          chmod_dir _ _ (some 0o1777) 0o1777 hl2]
    · refine ⟨fsSet fs "/var/run/kytos" (Entry.dir (some 0o1777)), ?_, ?_, ?_, ?_, ?_⟩
      · simp [create_pid_folder, hpid, makedirs_exist_ok_dir _ _ m h,
          chmod_dir _ _ m 0o1777 h]
      · intro _
        simp [fsLookup_set]
      · intro hne
        exact absurd rfl hne
      · intro hne
        exact absurd rfl hne
      · have hl2 : fsLookup (fsSet fs "/var/run/kytos" (Entry.dir (some 0o1777)))
            "/var/run/kytos" = some (Entry.dir (some 0o1777)) := by simp [fsLookup_set]
        refine ⟨fsSet (fsSet fs "/var/run/kytos" (Entry.dir (some 0o1777)))
          "/var/run/kytos" (Entry.dir (some 0o1777)), ?_⟩
        simp [create_pid_folder, hpid, makedirs_exist_ok_dir _ _ (some 0o1777) hl2,
          chmod_dir _ _ (some 0o1777) 0o1777 hl2]
  · rcases h with h | ⟨m, h⟩
    · refine ⟨fsSet fs (pathJoin baseEnv "var/run/kytos") (Entry.dir none), ?_, ?_, ?_, ?_, ?_⟩
      · simp [create_pid_folder, makedirs_exist_ok_none fs _ h, hb]
      · intro hc
        exact absurd hc hb
      · intro _ _
        simp [fsLookup_set]
      · intro _ m hm
        rw [h] at hm
        cases hm
      · have hl1 : fsLookup (fsSet fs (pathJoin baseEnv "var/run/kytos") (Entry.dir none))
            (pathJoin baseEnv "var/run/kytos") = some (Entry.dir none) := by
          simp [fsLookup_set]
        refine ⟨fsSet fs (pathJoin baseEnv "var/run/kytos") (Entry.dir none), ?_⟩
        simp [create_pid_folder, makedirs_exist_ok_dir _ _ none hl1, hb]
    · refine ⟨fs, ?_, ?_, ?_, ?_, ?_⟩
      · simp [create_pid_folder, makedirs_exist_ok_dir _ _ m h, hb]
      · intro hc
        exact absurd hc hb
      · intro _ h0
        rw [h] at h0
        cases h0
      · intro _ m' hm'
        rw [h] at hm'
        injection hm' with he
        injection he with hm2
        rw [h, hm2]
      · refine ⟨fs, ?_⟩
        simp [create_pid_folder, makedirs_exist_ok_dir _ _ m h, hb]

/-- Witness for C6: system root gets mode `0o1777`; a virtual-environment
target gets a directory with no forced mode. -/
theorem create_pid_folder_spec_witness :
    create_pid_folder "/" [] =
      Res.ok [("/var/run/kytos", Entry.dir (some 0o1777)), ("/var/run/kytos", Entry.dir none)] ∧
    fsLookup [("/var/run/kytos", Entry.dir (some 0o1777)), ("/var/run/kytos", Entry.dir none)]
      "/var/run/kytos" = some (Entry.dir (some 0o1777)) ∧
    create_pid_folder "/venv" [] = Res.ok [("/venv/var/run/kytos", Entry.dir none)] ∧
    fsLookup [("/venv/var/run/kytos", Entry.dir none)] (pathJoin "/venv" "var/run/kytos") =
      some (Entry.dir none) := by
  have hconc : create_pid_folder "/" [] =
      Res.ok [("/var/run/kytos", Entry.dir (some 0o1777)), ("/var/run/kytos", Entry.dir none)] := by
    decide
  have hconc2 : create_pid_folder "/venv" [] =
      Res.ok [("/venv/var/run/kytos", Entry.dir none)] := by decide
  refine ⟨hconc, ?_, hconc2, ?_⟩
  · rcases create_pid_folder_spec "/" [] (Or.inl (by decide)) with ⟨fs1, heq, h1, _, _, _⟩
    rw [heq] at hconc
    injection hconc with hfs
    rw [← hfs]
    exact h1 rfl
  · rcases create_pid_folder_spec "/venv" [] (Or.inl (by decide)) with ⟨fs1, heq, _, h2, _, _⟩
    rw [heq] at hconc2
    injection hconc2 with hfs
    rw [← hfs]
    exact h2 (by decide) (by decide)

/-- C3: `generate_file_link` creates the symlink only when nothing exists at
the destination; a pre-existing real file is left untouched; and after a
successful invocation a second invocation succeeds without changing
anything (the source file exists as a regular file, as it does for every
tracked configuration file when `DevelopMode.run` reaches the link loop). -/
theorem generate_file_link_spec (root baseEnv f : String) (fs : FS) (c : String)
    (hsrc : fsLookup fs (pathJoin root f) = some (Entry.file c)) :
    (∀ c', fsLookup fs (pathJoin baseEnv f) = some (Entry.file c') →
      generate_file_link root baseEnv f fs = Res.ok fs) ∧
    (fsLookup fs (pathJoin baseEnv f) = none →
      generate_file_link root baseEnv f fs =
        Res.ok (fsSet fs (pathJoin baseEnv f) (Entry.symlink (pathJoin root f)))) ∧
    (∀ fs1, generate_file_link root baseEnv f fs = Res.ok fs1 →
      generate_file_link root baseEnv f fs1 = Res.ok fs1) := by
  refine ⟨?_, ?_, ?_⟩
  · intro c' h'
    have hpe : path_exists fs (pathJoin baseEnv f) = true := by
      simp [path_exists, h']
    simp [generate_file_link, hpe]
  · intro h0
    have hpe : path_exists fs (pathJoin baseEnv f) = false := by
      simp [path_exists, h0]
    simp [generate_file_link, hpe, h0]
  · intro fs1 h1
    by_cases hpe : path_exists fs (pathJoin baseEnv f) = true
    · simp only [generate_file_link, hpe, if_true] at h1
      injection h1 with h1
      subst h1
      simp [generate_file_link, hpe]
    · have hpe' : path_exists fs (pathJoin baseEnv f) = false := by
        simpa using hpe
      cases h0 : fsLookup fs (pathJoin baseEnv f) with
      | none =>
        simp only [generate_file_link, hpe', Bool.false_eq_true, if_false, h0] at h1
        injection h1 with h1
        subst h1
        have hne : pathJoin baseEnv f ≠ pathJoin root f := by
          intro he
          rw [he] at h0
          rw [h0] at hsrc
          cases hsrc
        have hpe1 : path_exists
            (fsSet fs (pathJoin baseEnv f) (Entry.symlink (pathJoin root f)))
            (pathJoin baseEnv f) = true := by
          simp [path_exists, fsLookup_set, hne, hsrc]
        simp [generate_file_link, hpe1]
      | some e =>
        simp [generate_file_link, hpe', h0] at h1

/-- The source tree for the C3 witness: one tracked plain config file. -/
def fs_c3 : FS := [("/src/etc/kytos/logging.ini", Entry.file "L")]

/-- Witness for C3: link created when absent, second invocation is a
no-op success. -/
theorem generate_file_link_spec_witness :
    generate_file_link "/src" "/venv" "etc/kytos/logging.ini" fs_c3 =
      Res.ok (fsSet fs_c3 (pathJoin "/venv" "etc/kytos/logging.ini")
        (Entry.symlink (pathJoin "/src" "etc/kytos/logging.ini"))) ∧
    generate_file_link "/src" "/venv" "etc/kytos/logging.ini"
      (fsSet fs_c3 (pathJoin "/venv" "etc/kytos/logging.ini")
        (Entry.symlink (pathJoin "/src" "etc/kytos/logging.ini"))) =
      Res.ok (fsSet fs_c3 (pathJoin "/venv" "etc/kytos/logging.ini")
        (Entry.symlink (pathJoin "/src" "etc/kytos/logging.ini"))) := by
  have hthm := generate_file_link_spec "/src" "/venv" "etc/kytos/logging.ini" fs_c3 "L"
    (by decide)
  refine ⟨hthm.2.1 (by decide), ?_⟩
  exact hthm.2.2 _ (hthm.2.1 (by decide))

/-- C8: template rendering overwrites an existing destination file
unconditionally with the freshly rendered content, regardless of its prior
content, whereas Develop Install's `generate_file_link` skips a destination
that already exists. -/
theorem render_overwrites_existing
    (baseEnv root destination p : String) (args : List String) (fs : FS)
    (tmpl content old f cf : String)
    (hdir : path_exists fs (pathJoin baseEnv "etc/kytos") = true ∨
            fsLookup fs (pathJoin baseEnv "etc/kytos") = none)
    (htmpl : fsLookup fs (resolve root tmpl) = some (Entry.file content))
    (hdst : fsLookup fs (pathJoin destination (pyReplace tmpl ".template" "")) =
      some (Entry.file old))
    (hlink : fsLookup fs (pathJoin baseEnv f) = some (Entry.file cf)) :
    (∃ fs1, generate_file_from_template baseEnv root [tmpl] destination
        (Kwargs.mk (some p) args) fs = Res.ok fs1 ∧
      fsLookup fs1 (pathJoin destination (pyReplace tmpl ".template" "")) =
        some (Entry.file (jinja_render content (normalize_pfx p) args))) ∧
    generate_file_link root baseEnv f fs = Res.ok fs := by
  constructor
  · rcases hdir with hdir | hdir
    · have hcp : create_paths baseEnv fs = Res.ok fs := by
        simp [create_paths, hdir]
      refine ⟨fsSet fs (pathJoin destination (pyReplace tmpl ".template" ""))
        (Entry.file (jinja_render content (normalize_pfx p) args)), ?_, ?_⟩
      · simp [generate_file_from_template, hcp, renderAll, readFile, htmpl,
          writeFile, hdst]
      · simp [fsLookup_set]
    · have hpe : path_exists fs (pathJoin baseEnv "etc/kytos") = false := by
        simp [path_exists, hdir]
      have hcp : create_paths baseEnv fs =
          Res.ok (fsSet fs (pathJoin baseEnv "etc/kytos") (Entry.dir none)) := by
        simp [create_paths, hpe, hdir]
      have hne1 : pathJoin baseEnv "etc/kytos" ≠ resolve root tmpl := by
        intro he
        rw [he] at hdir
        rw [hdir] at htmpl
        cases htmpl
      have hne2 : pathJoin baseEnv "etc/kytos" ≠
          pathJoin destination (pyReplace tmpl ".template" "") := by
        intro he
        rw [he] at hdir
        rw [hdir] at hdst
        cases hdst
      refine ⟨fsSet (fsSet fs (pathJoin baseEnv "etc/kytos") (Entry.dir none))
        (pathJoin destination (pyReplace tmpl ".template" ""))
        (Entry.file (jinja_render content (normalize_pfx p) args)), ?_, ?_⟩
      · simp [generate_file_from_template, hcp, renderAll, readFile, fsLookup_set,
          hne1, htmpl, writeFile, hne2, hdst]
      · simp [fsLookup_set]
  · have hpe : path_exists fs (pathJoin baseEnv f) = true := by
      simp [path_exists, hlink]
    simp [generate_file_link, hpe]

/-- The file system for the C8 witness: a template, its already-rendered
destination with stale content, and an existing link destination. -/
def fs_c8 : FS :=
  [("/src/etc/kytos/logging.ini.template", Entry.file "T"),
   ("/src/etc/kytos/logging.ini", Entry.file "OLD"),
   ("/venv/etc/kytos/logging.ini", Entry.file "CF")]

/-- The file system after rendering in the C8 witness. -/
def fs_c8' : FS :=
  ("/src/etc/kytos/logging.ini", Entry.file "T") ::
    ("/venv/etc/kytos", Entry.dir none) :: fs_c8

/-- Witness for C8: the stale destination "OLD" is overwritten with the
rendered content, while the symlink loop leaves the existing file alone. -/
theorem render_overwrites_existing_witness :
    fsLookup fs_c8 (resolve "/src" "etc/kytos/logging.ini.template") =
      some (Entry.file "T") ∧
    fsLookup fs_c8 (pathJoin "/src" (pyReplace "etc/kytos/logging.ini.template"
      ".template" "")) = some (Entry.file "OLD") ∧
    fsLookup fs_c8' (pathJoin "/src" (pyReplace "etc/kytos/logging.ini.template"
      ".template" "")) = some (Entry.file (jinja_render "T" (normalize_pfx "/venv") [])) ∧
    generate_file_from_template "/venv" "/src" ["etc/kytos/logging.ini.template"] "/src"
      (Kwargs.mk (some "/venv") []) fs_c8 = Res.ok fs_c8' ∧
    generate_file_link "/src" "/venv" "etc/kytos/logging.ini" fs_c8 = Res.ok fs_c8 := by
  obtain ⟨⟨fs1, heq, hl⟩, hgfl⟩ :=
    render_overwrites_existing "/venv" "/src" "/src" "/venv" [] fs_c8
      "etc/kytos/logging.ini.template" "T" "OLD" "etc/kytos/logging.ini" "CF"
      (Or.inr (by decide)) (by decide) (by decide) (by decide)
  have hconc : generate_file_from_template "/venv" "/src"
      ["etc/kytos/logging.ini.template"] "/src" (Kwargs.mk (some "/venv") []) fs_c8 =
      Res.ok fs_c8' := by decide
  have hfs : fs1 = fs_c8' := by
    rw [heq] at hconc
    injection hconc
  exact ⟨by decide, by decide, hfs ▸ hl, hconc, hgfl⟩

/-- The initial file system for the C5 counterexample: both templates exist,
and the plain config file `etc/kytos/logging.ini` holds stale content "OLD"
while its template renders to "NEW". -/
def fs_c5 : FS :=
  [("/src/etc/kytos/kytos.conf.template", Entry.file "C"),
   ("/src/etc/kytos/logging.ini.template", Entry.file "NEW"),
   ("/src/etc/kytos/logging.ini", Entry.file "OLD")]

/-- The content at the install-target copy of `etc/kytos/logging.ini` after
`InstallMode.run` on `fs_c5` (with `VIRTUAL_ENV=/venv`). -/
def c5_dest_content : Option Entry :=
  match InstallMode_run "/venv" "/src" [] fs_c5 with
  | Res.ok fs1 => fsLookup fs1 "/venv/etc/kytos/logging.ini"
  | Res.err _ _ => none

/-- C5 counterexample: at invocation time the source
`etc/kytos/logging.ini` holds "OLD", yet after `InstallMode.run` the
destination copy holds "NEW" — template rendering rewrites the source file
before the copy, so the destination does not equal the source's content at
invocation time. -/
theorem install_copy_not_invocation_time_content :
    fsLookup fs_c5 "/src/etc/kytos/logging.ini" = some (Entry.file "OLD") ∧
    c5_dest_content = some (Entry.file "NEW") ∧
    c5_dest_content ≠ some (Entry.file "OLD") := by
  decide

/-- C5 amended: after `InstallMode.run` completes, every file of `ETC_FILES`
has been copied into the install target, and the destination content equals
the source file's content at the time of the copy — i.e. after template
rendering has (possibly) rewritten it; equivalently, destination and source
contents agree when the run completes, both holding the freshly rendered
template output. -/
theorem install_copies_content_at_copy_time (tconf tlog lini : String)
    (args : List String) :
    ∃ fs1,
      InstallMode_run "/venv" "/src" args
        [("/src/etc/kytos/kytos.conf.template", Entry.file tconf),
         ("/src/etc/kytos/logging.ini.template", Entry.file tlog),
         ("/src/etc/kytos/logging.ini", Entry.file lini)] = Res.ok fs1 ∧
      fsLookup fs1 "/venv/etc/kytos/logging.ini" =
        fsLookup fs1 "/src/etc/kytos/logging.ini" ∧
      fsLookup fs1 "/venv/etc/kytos/logging.ini" =
        some (Entry.file (jinja_render tlog "/venv" args)) :=
  ⟨_, rfl, rfl, rfl⟩
